import Mathlib

/-!
# Verification of the pet resource handler (`src/routes/api/pet.js`)

Shallow embedding of the Express route handlers for the pet resource:
the list-endpoint query builder (match / sort / project / skip / limit),
the get-by-id handler, and the create / update / delete handlers with
their audit-trail writes.  JavaScript numbers that flow through
`parseInt` are modelled as `Option Int` (`none` = `NaN`), and JS
truthiness tests on them are made explicit.  Asynchronous storage calls
are modelled by passing the storage outcome as an argument and recording
the calls the handler makes as an event trace.
-/

namespace PetRoutes

/-- Timestamps (`new Date()`); the handlers only thread them through. -/
abbrev Time := Nat

/-! ## JavaScript `parseInt` and truthiness -/

/-- Value of a decimal digit run, most significant first. -/
def digitsToNat (ds : List Char) : Nat :=
  ds.foldl (fun a c => a * 10 + (c.toNat - 48)) 0

/-- Whitespace skipped by JS `parseInt`. -/
def isSpaceChar (c : Char) : Bool :=
  c = ' ' || c = '\t' || c = '\n' || c = '\r'

/-- Leading decimal-digit run of a character list; `none` when empty
(JS `parseInt` returns `NaN` when no digit is consumed). -/
def leadingNat (cs : List Char) : Option Nat :=
  let ds := cs.takeWhile Char.isDigit
  if ds.isEmpty then none else some (digitsToNat ds)

/-- JS `parseInt` on a string (radix 10): skip whitespace, optional
sign, longest digit run; `none` models `NaN`. -/
def parseIntJS (s : String) : Option Int :=
  match s.toList.dropWhile isSpaceChar with
  | '-' :: rest => (leadingNat rest).map (fun n => -(n : Int))
  | '+' :: rest => (leadingNat rest).map (fun n => (n : Int))
  | cs => (leadingNat cs).map (fun n => (n : Int))

/-- `parseInt` applied to a possibly absent query parameter
(`parseInt(undefined)` is `NaN`). -/
def parseIntOpt : Option String → Option Int
  | some s => parseIntJS s
  | none => none

/-- JS truthiness of a number that may be `NaN`: `0` and `NaN` are
falsy, every other number is truthy. -/
def jsTruthy : Option Int → Bool
  | some n => n != 0
  | none => false

/-- JS truthiness of a possibly absent string: `undefined` and `""`
are falsy. -/
def strTruthy : Option String → Bool
  | some s => !s.isEmpty
  | none => false

/-- JS `x || d` for a number that may be `NaN`: the default replaces
falsy values (`NaN` and `0`). -/
def jsOrDefault (o : Option Int) (d : Int) : Int :=
  match o with
  | some n => if n = 0 then d else n
  | none => d

/-! ## List endpoint: match stage -/

/-- The `match.age` document: `$gte` / `$lte` bounds actually set. -/
structure AgeMatch where
  gte : Option Int
  lte : Option Int
deriving DecidableEq, Repr

/-- The `$match` stage built by `router.get('/list')`: optional
`$text` search, optional species equality, optional age document. -/
structure MatchSpec where
  text : Option String
  species : Option String
  age : Option AgeMatch
deriving DecidableEq, Repr

/-- The age part of the match stage, mirroring the source's
`if (minAge && maxAge) ... else if (minAge) ... else if (maxAge) ...`
chain on the already-parsed values. -/
def buildAgeMatch (minAge maxAge : Option Int) : Option AgeMatch :=
  if jsTruthy minAge && jsTruthy maxAge then
    some { gte := minAge, lte := maxAge }
  else if jsTruthy minAge then
    some { gte := minAge, lte := none }
  else if jsTruthy maxAge then
    some { gte := none, lte := maxAge }
  else
    none

/-- The whole `$match` stage from the raw query parameters. -/
def buildMatch (keywords species minAge maxAge : Option String) : MatchSpec :=
  { text := if strTruthy keywords then keywords else none
    species := if strTruthy species then species else none
    age := buildAgeMatch (parseIntOpt minAge) (parseIntOpt maxAge) }

/-- Whether an age value satisfies the age part of a match stage
(MongoDB `$gte` / `$lte` semantics; an absent document filters
nothing). -/
def ageSatisfies (m : Option AgeMatch) (age : Int) : Bool :=
  match m with
  | none => true
  | some c =>
    (match c.gte with | some g => decide (g ≤ age) | none => true) &&
    (match c.lte with | some l => decide (age ≤ l) | none => true)

/-! ## List endpoint: sort, project, skip, limit -/

/-- Document field names that appear in the pipeline and the pet
documents. -/
inductive Field where
  | id
  | species
  | name
  | age
  | gender
  | createdBy
  | createdOn
  | createdDate
  | lastUpdatedBy
  | lastUpdated
deriving DecidableEq, Repr

/-- The `$sort` stage: field/direction pairs (`1` ascending, `-1`
descending), mirroring the `switch (sortBy)` of the source, whose
default (and unmatched) case is `{ name: 1, createdDate: 1 }`. -/
def sortSpec (sortBy : Option String) : List (Field × Int) :=
  match sortBy with
  | some "species" => [(.species, 1), (.name, 1), (.createdDate, 1)]
  | some "species_desc" => [(.species, -1), (.name, -1), (.createdDate, -1)]
  | some "name" => [(.name, 1), (.createdDate, 1)]
  | some "name_desc" => [(.name, -1), (.createdDate, -1)]
  | some "age" => [(.age, 1), (.createdDate, 1)]
  | some "age_desc" => [(.age, -1), (.createdDate, -1)]
  | some "gender" => [(.gender, 1), (.name, 1), (.createdDate, 1)]
  | some "gender_desc" => [(.gender, -1), (.name, -1), (.createdDate, -1)]
  | some "newest" => [(.createdDate, -1)]
  | some "oldest" => [(.createdDate, 1)]
  | _ => [(.name, 1), (.createdDate, 1)]

/-- The fixed `$project` stage of the list endpoint. -/
def projectFields : List Field :=
  [.species, .name, .age, .gender, .createdBy, .createdOn,
   .lastUpdatedBy, .lastUpdated]

/-- `pageNumber = parseInt(pageNumber) || 1`. -/
def pageNumberOf (s : Option String) : Int :=
  jsOrDefault (parseIntOpt s) 1

/-- `pageSize = parseInt(pageSize) || 5`. -/
def pageSizeOf (s : Option String) : Int :=
  jsOrDefault (parseIntOpt s) 5

/-- `skip = (pageNumber - 1) * pageSize`. -/
def skipOf (pageNumber pageSize : Option String) : Int :=
  (pageNumberOf pageNumber - 1) * pageSizeOf pageSize

/-- `limit = pageSize`. -/
def limitOf (pageSize : Option String) : Int :=
  pageSizeOf pageSize

/-- One stage of the aggregation pipeline. -/
inductive Stage where
  | matchS (m : MatchSpec)
  | sortS (s : List (Field × Int))
  | projectS (fs : List Field)
  | skipS (n : Int)
  | limitS (n : Int)
deriving DecidableEq, Repr

/-- The full pipeline assembled by `router.get('/list')`. -/
def listPipeline (keywords species minAge maxAge sortBy pageNumber pageSize :
    Option String) : List Stage :=
  [ .matchS (buildMatch keywords species minAge maxAge),
    .sortS (sortSpec sortBy),
    .projectS projectFields,
    .skipS (skipOf pageNumber pageSize),
    .limitS (limitOf pageSize) ]

/-! ## Actors, pets, audit records -/

/-- The authenticated actor's claims object (`req.auth`).  Besides the
four fields picked into `createdBy` / `lastUpdatedBy`, real claims
carry more data (issued-at, expiry, ...), modelled by `extra`. -/
structure Auth where
  _id : String
  email : String
  fullName : String
  role : String
  extra : List (String × String)
deriving DecidableEq, Repr

/-- `_.pick(req.auth, '_id', 'email', 'fullName', 'role')`. -/
structure AuthPick where
  _id : String
  email : String
  fullName : String
  role : String
deriving DecidableEq, Repr

/-- The projection of the actor stored on created/updated documents. -/
def authPick (a : Auth) : AuthPick :=
  { _id := a._id, email := a.email, fullName := a.fullName, role := a.role }

/-- A validated creation payload (`newPetSchema`: all four required). -/
structure NewPetBody where
  species : String
  name : String
  age : Int
  gender : String
deriving DecidableEq, Repr

/-- A full pet document as assembled by `router.put('/new')`:
body fields, fresh `_id`, `createdBy` pick, `createdOn` timestamp. -/
structure PetDoc where
  species : String
  name : String
  age : Int
  gender : String
  _id : String
  createdBy : AuthPick
  createdOn : Time
deriving DecidableEq, Repr

/-- Document assembly in `router.put('/new')`:
`{ ...req.body, _id: petId, createdBy: pick, createdOn: new Date() }`. -/
def assemblePet (body : NewPetBody) (petId : String) (auth : Auth)
    (now : Time) : PetDoc :=
  { species := body.species, name := body.name, age := body.age,
    gender := body.gender, _id := petId, createdBy := authPick auth,
    createdOn := now }

/-- A validated partial update payload (`updatePetSchema`: any subset
of the four fields). -/
structure UpdatePayload where
  species : Option String
  name : Option String
  age : Option Int
  gender : Option String
deriving DecidableEq, Repr

/-- `_.isEmpty(update)`: the payload object has no keys. -/
def UpdatePayload.isEmpty (u : UpdatePayload) : Bool :=
  u.species.isNone && u.name.isNone && u.age.isNone && u.gender.isNone

/-- The update object after the handler may have added the
`lastUpdatedBy` / `lastUpdated` stamps. -/
structure StampedUpdate where
  payload : UpdatePayload
  lastUpdatedBy : Option AuthPick
  lastUpdated : Option Time
deriving DecidableEq, Repr

/-- Stamping in `router.put('/:petId')`: only a non-empty payload gets
`lastUpdatedBy` / `lastUpdated` added. -/
def stampUpdate (u : UpdatePayload) (auth : Auth) (now : Time) :
    StampedUpdate :=
  if !u.isEmpty then
    { payload := u, lastUpdatedBy := some (authPick auth),
      lastUpdated := some now }
  else
    { payload := u, lastUpdatedBy := none, lastUpdated := none }

/-- The `update` field of an audit record: the full inserted document
(create) or the stamped partial payload (update). -/
inductive EditUpdate where
  | fullDoc (p : PetDoc)
  | patch (u : StampedUpdate)
deriving DecidableEq, Repr

/-- An audit record as passed to `saveEdit`. -/
structure Edit where
  timestamp : Time
  op : String
  col : String
  target : String
  update : Option EditUpdate
  auth : Auth
deriving DecidableEq, Repr

/-! ## Handlers as traced functions

Each handler is modelled as a function from its inputs — including the
outcome its storage call will report — to the list of storage/audit
calls it performs, in order, together with the response it sends. -/

/-- One storage or audit call made by a handler. -/
inductive Ev where
  | findPetById (petId : String)
  | insertOnePet (doc : PetDoc)
  | updateOnePet (petId : String) (u : StampedUpdate)
  | deleteOnePet (petId : String)
  | saveEdit (e : Edit)
deriving DecidableEq, Repr

/-- A response sent by a handler. -/
inductive Response where
  | petJson (p : PetDoc)
  | message (msg : String) (petId : String)
  | notFound (error : String)
deriving DecidableEq, Repr

/-- Result object of `updateOnePet` as far as the handler reads it. -/
structure UpdateResult where
  matchedCount : Nat
deriving DecidableEq, Repr

/-- `router.get('/:petId')`: look the pet up; 404 with an error body
when absent; a storage failure propagates to `next(err)`. -/
def getPetHandler {E : Type} (petId : String)
    (lookup : Except E (Option PetDoc)) :
    List Ev × Except E Response :=
  match lookup with
  | .error e => ([.findPetById petId], .error e)
  | .ok none =>
    ([.findPetById petId],
     .ok (.notFound ("Pet " ++ petId ++ " not found.")))
  | .ok (some pet) => ([.findPetById petId], .ok (.petJson pet))

/-- `router.put('/new')`: assemble the document, insert it, then save
the audit record, then respond.  A throwing insert propagates to
`next(err)` before the audit write. -/
def insertPetHandler {E : Type} (body : NewPetBody) (petId : String)
    (auth : Auth) (now : Time) (insertOutcome : Except E Unit) :
    List Ev × Except E Response :=
  let pet := assemblePet body petId auth now
  match insertOutcome with
  | .error e => ([.insertOnePet pet], .error e)
  | .ok _ =>
    let edit : Edit :=
      { timestamp := now, op := "insert", col := "pets",
        target := petId, update := some (.fullDoc pet), auth := auth }
    ([.insertOnePet pet, .saveEdit edit],
     .ok (.message "Pet inserted." petId))

/-- `router.put('/:petId')`: stamp a non-empty payload, apply the
update, save the audit record unconditionally, then respond by
`matchedCount`. -/
def updatePetHandler (petId : String) (body : UpdatePayload)
    (auth : Auth) (now : Time) (updateResult : UpdateResult) :
    List Ev × Response :=
  let update := stampUpdate body auth now
  let edit : Edit :=
    { timestamp := now, op := "update", col := "pets",
      target := petId, update := some (.patch update), auth := auth }
  ([.updateOnePet petId update, .saveEdit edit],
   if updateResult.matchedCount > 0 then
     .message "Pet Updated!" petId
   else
     .notFound "Pet not found!")

/-- `router.delete('/:petId')`: delete, save the audit record (no
`update` field), respond with success whatever the delete reported. -/
def deletePetHandler (petId : String) (auth : Auth) (now : Time)
    (deletedCount : Nat) : List Ev × Response :=
  let edit : Edit :=
    { timestamp := now, op := "delete", col := "pets",
      target := petId, update := none, auth := auth }
  ([.deleteOnePet petId, .saveEdit edit],
   .message "Pet Deleted!" petId)

/-! ## Auxiliary definitions for the claims -/

/-- The audit records among a handler's calls, in order. -/
def editsOf (tr : List Ev) : List Edit :=
  tr.filterMap fun ev =>
    match ev with
    | .saveEdit e => some e
    | _ => none

/-- Modelled from the spec: the age predicate as the spec words it —
each successfully parsed bound contributes its side of an inclusive
range (`age ≥ minAge` and/or `age ≤ maxAge`), a failed parse is treated
as absent. -/
def specC1AgeSatisfies (minP maxP : Option Int) (age : Int) : Bool :=
  (match minP with | some g => decide (g ≤ age) | none => true) &&
  (match maxP with | some l => decide (age ≤ l) | none => true)

/-- The amended age predicate: a parsed bound contributes its side of
the inclusive range only when it is truthy (parsed and nonzero); a
bound that fails to parse or parses to `0` is treated as absent. -/
def amendedC1AgeSatisfies (minP maxP : Option Int) (age : Int) : Bool :=
  (if jsTruthy minP then decide (minP.getD 0 ≤ age) else true) &&
  (if jsTruthy maxP then decide (age ≤ maxP.getD 0) else true)

/-- Fields carried by the document assembled in `router.put('/new')`
(the fields of `assemblePet`'s result): the validated body fields plus
`_id`, `createdBy`, `createdOn`. -/
def newPetFieldNames : List Field :=
  [.species, .name, .age, .gender, .id, .createdBy, .createdOn]

lemma ageMatch_truthy_aux (minP maxP : Option Int) (age : Int) :
    ageSatisfies (buildAgeMatch minP maxP) age =
      amendedC1AgeSatisfies minP maxP age := by
  cases minP with
  | none =>
    cases maxP with
    | none => rfl
    | some b =>
      by_cases hb : b = 0 <;>
        simp [buildAgeMatch, amendedC1AgeSatisfies, jsTruthy,
          ageSatisfies, hb]
  | some a =>
    cases maxP with
    | none =>
      by_cases ha : a = 0 <;>
        simp [buildAgeMatch, amendedC1AgeSatisfies, jsTruthy,
          ageSatisfies, ha]
    | some b =>
      by_cases ha : a = 0 <;> by_cases hb : b = 0 <;>
        simp [buildAgeMatch, amendedC1AgeSatisfies, jsTruthy,
          ageSatisfies, ha, hb]

/-! ## Claim theorems -/

/-- C1 (counterexample): `maxAge = "0"` parses successfully to `0`,
yet the list handler's match stage drops the upper bound entirely
(JS falsy coercion), so a pet of age 1 passes the code's filter while
the claim's predicate (`age ≤ 0`) rejects it. -/
theorem listAgeFilter_zero_bound_dropped :
    parseIntOpt (some "0") = some 0 ∧
    buildAgeMatch (parseIntOpt none) (parseIntOpt (some "0")) = none ∧
    ageSatisfies
      (buildMatch none none none (some "0")).age 1 = true ∧
    specC1AgeSatisfies (parseIntOpt none) (parseIntOpt (some "0")) 1
      = false := by
  decide

/-- C1 (amended): for every pair of `minAge` / `maxAge` query
parameters, the list handler's match stage realises the amended
predicate — each bound contributes its side of the inclusive age range
exactly when it parses to a nonzero integer; a non-numeric value or a
value parsing to `0` is silently treated as absent, and omitting
either bound removes only that side of the constraint. -/
theorem listAgeFilter_truthy_bounds (keywords species minS maxS :
    Option String) (age : Int) :
    ageSatisfies (buildMatch keywords species minS maxS).age age =
      amendedC1AgeSatisfies (parseIntOpt minS) (parseIntOpt maxS) age :=
  ageMatch_truthy_aux (parseIntOpt minS) (parseIntOpt maxS) age

/-- C2 (code evaluation): the sort stage built for `sortBy = "name"`
(and the default) uses `createdDate` as the secondary sort key, but the
documents assembled by the create path, and the list projection, carry
`createdOn` and never `createdDate` — the code sorts on a field its own
documents do not have, where the claim (and the data model) say the
tiebreak is the creation timestamp `createdOn`. -/
theorem sortSpec_tiebreak_field_mismatch :
    sortSpec (some "name") = [(.name, 1), (.createdDate, 1)] ∧
    sortSpec none = [(.name, 1), (.createdDate, 1)] ∧
    Field.createdDate ∉ newPetFieldNames ∧
    Field.createdOn ∈ newPetFieldNames ∧
    Field.createdDate ∉ projectFields ∧
    Field.createdOn ∈ projectFields ∧
    Field.createdOn ∉ (sortSpec (some "name")).map Prod.fst := by
  decide

/-- C3: for every validated id, payload and update outcome, the update
handler applies the stamped update and then appends exactly one
`EditRecord` with `op = "update"`, target = the id, update = the
stamped payload and `auth` = the full actor claims — unconditionally,
also when no document matched — and responds with success iff the
persistence layer reports `matchedCount > 0`, with 404 otherwise. -/
theorem updatePet_audit_unconditional (petId : String)
    (body : UpdatePayload) (auth : Auth) (now : Time)
    (res : UpdateResult) :
    (updatePetHandler petId body auth now res).1 =
      [Ev.updateOnePet petId (stampUpdate body auth now),
       Ev.saveEdit
        { timestamp := now, op := "update", col := "pets",
          target := petId,
          update := some (.patch (stampUpdate body auth now)),
          auth := auth }] ∧
    (updatePetHandler petId body auth now res).2 =
      (if res.matchedCount > 0 then
        Response.message "Pet Updated!" petId
       else
        Response.notFound "Pet not found!") :=
  ⟨rfl, rfl⟩

/-- C4: the create handler inserts the assembled document first and
appends the audit record second; when the insert throws, the error is
propagated and no audit record is written; when it succeeds, exactly
one `EditRecord` with `op = "insert"`, target = the id, update = the
full assembled document and `auth` = the actor claims is appended
before the success response. -/
theorem insertPet_audit_sequencing {E : Type} (body : NewPetBody)
    (petId : String) (auth : Auth) (now : Time) (e : E) :
    insertPetHandler body petId auth now (Except.error e) =
      ([Ev.insertOnePet (assemblePet body petId auth now)],
       Except.error e) ∧
    @insertPetHandler E body petId auth now (Except.ok ()) =
      ([Ev.insertOnePet (assemblePet body petId auth now),
        Ev.saveEdit
          { timestamp := now, op := "insert", col := "pets",
            target := petId,
            update := some (.fullDoc (assemblePet body petId auth now)),
            auth := auth }],
       Except.ok (Response.message "Pet inserted." petId)) :=
  ⟨rfl, rfl⟩

/-- C5: for every validated id and every deletion outcome, the delete
handler attempts the deletion, then appends exactly one `EditRecord`
with `op = "delete"`, target = the id, `auth` = the actor claims and no
`update` field — also when nothing was deleted — and responds with a
success message and the id regardless of the outcome. -/
theorem deletePet_audit_unconditional (petId : String) (auth : Auth)
    (now : Time) (deletedCount : Nat) :
    deletePetHandler petId auth now deletedCount =
      ([Ev.deleteOnePet petId,
        Ev.saveEdit
          { timestamp := now, op := "delete", col := "pets",
            target := petId, update := none, auth := auth }],
       Response.message "Pet Deleted!" petId) :=
  rfl

/-- C6: `pageNumber` and `pageSize` are parsed as integers; a value
that fails to parse (or is absent) defaults to 1 resp. 5; the skip
offset is `(pageNumber − 1) × pageSize` and the limit is `pageSize`;
in particular the defaults give skip 0 / limit 5 and
`pageNumber=3, pageSize=10` gives skip 20. -/
theorem listPagination_skip_limit (pn ps : Option String) :
    (parseIntOpt pn = none → pageNumberOf pn = 1) ∧
    (parseIntOpt ps = none → pageSizeOf ps = 5) ∧
    skipOf pn ps = (pageNumberOf pn - 1) * pageSizeOf ps ∧
    limitOf ps = pageSizeOf ps ∧
    skipOf none none = 0 ∧ limitOf none = 5 ∧
    skipOf (some "3") (some "10") = 20 ∧
    limitOf (some "10") = 10 := by
  refine ⟨?_, ?_, rfl, rfl, by decide, by decide, by decide, by decide⟩
  · intro h
    simp [pageNumberOf, jsOrDefault, h]
  · intro h
    simp [pageSizeOf, jsOrDefault, h]

/-- C6 witness: at `pageNumber = "abc"`, `pageSize = "xyz"` the parse
fails and the defaults 1 and 5 apply. -/
theorem listPagination_skip_limit_witness :
    pageNumberOf (some "abc") = 1 ∧ pageSizeOf (some "xyz") = 5 :=
  ⟨(listPagination_skip_limit (some "abc") (some "xyz")).1 (by decide),
   (listPagination_skip_limit (some "abc") (some "xyz")).2.1
     (by decide)⟩

/-- C7: the update handler stamps a non-empty payload with
`lastUpdatedBy` (the `{_id, email, fullName, role}` projection of the
actor) and `lastUpdated` (the current time) before applying it; an
empty payload is stamped with nothing; and in either case exactly one
audit record is written, carrying exactly the stamped (possibly empty)
update. -/
theorem updatePet_stamping (petId : String) (body : UpdatePayload)
    (auth : Auth) (now : Time) (res : UpdateResult) :
    stampUpdate body auth now =
      (if body.isEmpty then
        { payload := body, lastUpdatedBy := none, lastUpdated := none }
       else
        { payload := body, lastUpdatedBy := some (authPick auth),
          lastUpdated := some now }) ∧
    editsOf (updatePetHandler petId body auth now res).1 =
      [{ timestamp := now, op := "update", col := "pets",
         target := petId,
         update := some (.patch (stampUpdate body auth now)),
         auth := auth }] := by
  constructor
  · by_cases h : body.isEmpty <;> simp [stampUpdate, h]
  · rfl

/-- C8: the get-by-id handler performs exactly one read and no writes;
a found pet is returned as-is, a missing pet yields a 404 response with
an error body (not a thrown error), and a storage failure is propagated
as a distinct error. -/
theorem getPet_notFound_distinct {E : Type} (petId : String)
    (pet : PetDoc) (e : E) (r : Except E (Option PetDoc)) :
    (getPetHandler petId r).1 = [Ev.findPetById petId] ∧
    @getPetHandler E petId (Except.ok (some pet)) =
      ([Ev.findPetById petId], Except.ok (Response.petJson pet)) ∧
    @getPetHandler E petId (Except.ok none) =
      ([Ev.findPetById petId],
       Except.ok (Response.notFound ("Pet " ++ petId ++ " not found."))) ∧
    getPetHandler petId (Except.error e) =
      ([Ev.findPetById petId], Except.error e) := by
  refine ⟨?_, rfl, rfl, rfl⟩
  cases r with
  | error _ => rfl
  | ok o => cases o <;> rfl

/-- C9: `pageNumber = "0"` and `pageSize = "0"` parse successfully yet
fall back to the defaults 1 and 5 (falsy coercion); any nonzero parsed
value — negative values included — is kept as-is, so
`pageNumber = "-2", pageSize = "5"` produces the negative skip −15,
which is placed unclamped in the aggregation pipeline. -/
theorem listPagination_falsy_zero (s : Option String) (n : Int) :
    pageNumberOf (some "0") = 1 ∧
    pageSizeOf (some "0") = 5 ∧
    (parseIntOpt s = some n → n ≠ 0 →
      pageNumberOf s = n ∧ pageSizeOf s = n) ∧
    skipOf (some "-2") (some "5") = -15 ∧
    Stage.skipS (-15) ∈
      listPipeline none none none none none (some "-2") (some "5") := by
  refine ⟨by decide, by decide, ?_, by decide, by decide⟩
  intro h hn
  constructor <;> simp [pageNumberOf, pageSizeOf, jsOrDefault, h, hn]

/-- C9 witness: `"-2"` parses to the nonzero value −2 and is kept
as-is by both pagination parameters. -/
theorem listPagination_falsy_zero_witness :
    pageNumberOf (some "-2") = -2 ∧ pageSizeOf (some "-2") = -2 :=
  (listPagination_falsy_zero (some "-2") (-2)).2.2.1 (by decide)
    (by decide)

/-- C10: each of the four descending single-field sorts reverses its
tiebreak fields as well — the secondary (and for `species_desc` /
`gender_desc` the tertiary) sort keys are all descending, mirroring the
primary key's direction. -/
theorem sortSpec_desc_tiebreaks :
    sortSpec (some "species_desc") =
      [(.species, -1), (.name, -1), (.createdDate, -1)] ∧
    sortSpec (some "name_desc") = [(.name, -1), (.createdDate, -1)] ∧
    sortSpec (some "age_desc") = [(.age, -1), (.createdDate, -1)] ∧
    sortSpec (some "gender_desc") =
      [(.gender, -1), (.name, -1), (.createdDate, -1)] ∧
    ((sortSpec (some "species_desc")).all fun p => p.2 == -1) = true ∧
    ((sortSpec (some "name_desc")).all fun p => p.2 == -1) = true ∧
    ((sortSpec (some "age_desc")).all fun p => p.2 == -1) = true ∧
    ((sortSpec (some "gender_desc")).all fun p => p.2 == -1) = true := by
  decide

end PetRoutes
